import Mathlib

/-!
Shallow embedding of `src/autogen/autogen_simple_demo.py`
(`SimpleInterviewPlatformWorkflow`), covering:

* `_make_api_call` (lines 44-118): the rate-limit retry loop, the
  classification of caught errors, and the wait-time extraction from the
  error message via `re.search(r'Please try again in ([\d.]+)([smh])', ...)`;
* `run` / `phase_research` .. `phase_review` / `print_summary`
  (lines 120-342): the sequential five-phase orchestration over the
  `self.outputs` dict and the final aggregate report.

Modelling conventions:

* Python strings are Lean `String`s; substring tests and `str.lower()` are
  implemented over `List Char` (`.lower()` is modelled by `Char.toLower`,
  which agrees with Python on the ASCII error messages involved here).
* Python floats are modelled as exact decimals: the captured regex group is
  a decimal numeral with value `n / 10^k`, and `float(...)` / `value * 60` /
  `int(...)` are modelled by exact decimal parsing and exact arithmetic
  (for the nonnegative values that occur here Python's truncating `int()`
  is the floor, and `int(value * 60)` is `60*n / 10^k` in `Nat` division).
* The remote chat-completion call is nondeterministic; it is modelled by an
  oracle `client : Nat → AttemptOutcome` giving the outcome of each attempt
  (numbered from 0) of one `_make_api_call` invocation, and for the whole
  workflow by `oracle : Nat → Nat → AttemptOutcome` (phase index ↦ attempt
  oracle).  `_make_api_call` never inspects the response text, so the
  outcome oracle is indexed by attempt number only.
* Raising an exception is modelled by `Except` / explicit error results;
  `time.sleep(w)` is recorded in a trace of sleep durations; `print` calls
  are side effects with no bearing on the claims and are dropped.
-/

namespace AutogenDemo

/-! ### Character/string machinery used by the Python string operations -/

/-- `startsWithL needle l` : `needle` is a prefix of `l` (chars compared with `==`). -/
def startsWithL : List Char → List Char → Bool
  | [], _ => true
  | _ :: _, [] => false
  | a :: as, b :: bs => a == b && startsWithL as bs

/-- `containsL needle l` : Python's `needle in l` substring test. -/
def containsL (needle : List Char) : List Char → Bool
  | [] => startsWithL needle []
  | l@(_ :: t) => startsWithL needle l || containsL needle t

/-- Python `str.lower()` (ASCII; error messages here are ASCII). -/
def toLowerL (l : List Char) : List Char := l.map Char.toLower

/-- Character class `[\d.]` of the wait-time regex. -/
def isDigitDot (c : Char) : Bool := c.isDigit || c == '.'

/-- Character class `[smh]` of the wait-time regex. -/
def isUnitChar (c : Char) : Bool := c == 's' || c == 'm' || c == 'h'

/-- `dropLit lit l` : if `lit` is a prefix of `l`, the rest of `l`, else `none`. -/
def dropLit : List Char → List Char → Option (List Char)
  | [], l => some l
  | _ :: _, [] => none
  | a :: as, b :: bs => if a == b then dropLit as bs else none

/-- The literal part of the regex `r'Please try again in ([\d.]+)([smh])'`
(note the trailing space before the first group). -/
def waitLit : List Char := "Please try again in ".data

/-- Match the regex `Please try again in ([\d.]+)([smh])` at the head of `l`,
returning `(group 1, group 2)`.  Since the classes `[\d.]` and `[smh]` are
disjoint, the greedy `([\d.]+)` can only succeed by taking the whole maximal
`[\d.]` run, with the single following character in `[smh]`: backtracking to a
shorter group-1 would place a `[\d.]` character where `[smh]` must match. -/
def matchWaitAt (l : List Char) : Option (List Char × Char) :=
  match dropLit waitLit l with
  | none => none
  | some rest =>
    let grp := rest.takeWhile isDigitDot
    if grp.isEmpty then none
    else
      match rest.drop grp.length with
      | [] => none
      | c :: _ => if isUnitChar c then some (grp, c) else none

/-- `re.search` for the wait-time pattern: leftmost position where it matches. -/
def searchWait : List Char → Option (List Char × Char)
  | [] => none
  | l@(_ :: t) =>
    match matchWaitAt l with
    | some m => some m
    | none => searchWait t

/-- Value of a digit string (most significant first). -/
def digitsToNat (l : List Char) : Nat :=
  l.foldl (fun acc c => acc * 10 + (c.toNat - '0'.toNat)) 0

/-- Python `float(s)` for a string `s` drawn from `[\d.]+`, as an exact
decimal `numerator / 10 ^ exponent`: defined (`some`) iff `s` has at least one
digit and at most one dot (Python raises `ValueError` on inputs like `"."` or
`"1.2.3"`).  For the digits `i.f` the value is `(i * 10^|f| + f) / 10^|f|`. -/
def parseDecimalParts (l : List Char) : Option (Nat × Nat) :=
  if l.all isDigitDot && l.count '.' ≤ 1 && l.any Char.isDigit then
    let intPart := l.takeWhile (fun c => c != '.')
    let fracPart := (l.dropWhile (fun c => c != '.')).drop 1
    some (digitsToNat intPart * 10 ^ fracPart.length + digitsToNat fracPart, fracPart.length)
  else none

/-- The exact rational value of the parsed decimal. -/
def parseDecimal (l : List Char) : Option ℚ :=
  (parseDecimalParts l).map fun p => (p.1 : ℚ) / (10 : ℚ) ^ p.2

/-! ### `_make_api_call`: error classification and wait-time computation -/

/-- Lines 77-82: classification of a caught error as a rate-limit error, from
its type name `type(e).__name__` and its message `str(e)`. -/
def isRateLimit (error_type error_str : String) : Bool :=
  error_type == "RateLimitError" ||
  containsL "rate_limit".data (toLowerL error_str.data) ||
  containsL "rate limit".data (toLowerL error_str.data) ||
  containsL "429".data error_str.data

/-- Lines 86-100: the wait time (seconds) computed for a rate-limit error with
message `error_str`.  `Except.error ()` models the `ValueError` raised by
`float(...)` when the captured group has no digit.  The captured value is the
nonnegative exact decimal `n / 10^k`, for which Python's truncating `int(...)`
is the floor, so `int(value) = n / 10^k`, `int(value * 60) = 60*n / 10^k` and
`int(value * 3600) = 3600*n / 10^k` in natural-number division. -/
def computeWaitTime (error_str : String) : Except Unit Int :=
  if containsL "Please try again in".data error_str.data then
    match searchWait error_str.data with
    | none => Except.ok 60
    | some (grp, unit) =>
      match parseDecimalParts grp with
      | none => Except.error ()
      | some (n, k) =>
        if unit == 's' then Except.ok (((n / 10 ^ k : Nat) : Int) + 5)
        else if unit == 'm' then Except.ok (((60 * n / 10 ^ k : Nat) : Int) + 10)
        else if unit == 'h' then Except.ok (((3600 * n / 10 ^ k : Nat) : Int) + 60)
        else Except.ok 60
  else Except.ok 60

/-- Outcome of one attempt of the remote call `self.client.chat.completions.create`:
either a response (its extracted `choices[0].message.content` text) or a raised
error, given by its type name and message. -/
inductive AttemptOutcome where
  | ok (resp : String)
  | fail (errType errStr : String)
deriving DecidableEq, Repr

/-- An exception propagating out of the embedded code. -/
inductive RunError where
  /-- the bare `raise` re-raising the caught error (type name, message) -/
  | raised (errType errStr : String)
  /-- `ValueError` from `float(...)` on a digit-free captured group -/
  | valueError
  /-- `AttributeError` from `response.choices` when the call returned `None` -/
  | attributeError
  /-- `KeyError` from `self.outputs[key]` on a missing key -/
  | keyError (key : String)
deriving DecidableEq, Repr

instance instDecEqExcept {ε α : Type} [DecidableEq ε] [DecidableEq α] :
    DecidableEq (Except ε α) := fun
  | Except.ok a, Except.ok b =>
    if h : a = b then isTrue (by rw [h]) else isFalse (fun hc => by cases hc; exact h rfl)
  | Except.ok _, Except.error _ => isFalse (fun hc => by cases hc)
  | Except.error _, Except.ok _ => isFalse (fun hc => by cases hc)
  | Except.error e, Except.error f =>
    if h : e = f then isTrue (by rw [h]) else isFalse (fun hc => by cases hc; exact h rfl)

/-- Everything observable about one `_make_api_call` invocation: its outcome
(`Except.ok none` is Python falling off the loop and returning `None`), the
number of attempts (API calls) made, and the list of sleep durations in order. -/
structure CallTrace where
  result : Except RunError (Option String)
  attempts : Nat
  sleeps : List Int
deriving DecidableEq, Repr

/-- The retry loop of `_make_api_call` (lines 60-118).  `rem` is the number of
iterations `range(max_retries)` still has; `attempt` the current index;
`sleeps` accumulates sleep durations (reversed). -/
def makeApiCallLoop (client : Nat → AttemptOutcome) (max_retries : Int) :
    Nat → Nat → List Int → CallTrace
  | 0, attempt, sleeps => ⟨Except.ok none, attempt, sleeps.reverse⟩
  | rem + 1, attempt, sleeps =>
    match client attempt with
    | AttemptOutcome.ok r => ⟨Except.ok (some r), attempt + 1, sleeps.reverse⟩
    | AttemptOutcome.fail ty msg =>
      if isRateLimit ty msg then
        match computeWaitTime msg with
        | Except.error _ => ⟨Except.error RunError.valueError, attempt + 1, sleeps.reverse⟩
        | Except.ok w =>
          if (attempt : Int) < max_retries - 1 then
            makeApiCallLoop client max_retries rem (attempt + 1) (w :: sleeps)
          else ⟨Except.error (RunError.raised ty msg), attempt + 1, sleeps.reverse⟩
      else ⟨Except.error (RunError.raised ty msg), attempt + 1, sleeps.reverse⟩

/-- `_make_api_call(self, system_prompt, user_message, max_retries)`
(lines 44-118).  The prompts are passed to the remote service and do not
otherwise influence the control flow; `max_retries` is a Python int, and
`range(max_retries)` is empty for non-positive values (`Int.toNat`). -/
def _make_api_call (client : Nat → AttemptOutcome)
    (system_prompt user_message : String) (max_retries : Int) : CallTrace :=
  makeApiCallLoop client max_retries max_retries.toNat 0 []

/-! ### The five-phase workflow: `run`, `phase_*`, `print_summary`

`self.outputs` is a Python dict from phase name to output text.  Python dicts
preserve insertion order and keep an existing key's position on re-assignment;
`dictGet`/`dictSet` model exactly that on an association list. -/

/-- Python dict lookup `d.get(k)` / the test behind `d[k]`. -/
def dictGet : List (String × String) → String → Option String
  | [], _ => none
  | (k, v) :: t, key => if k == key then some v else dictGet t key

/-- Python dict assignment `d[k] = v`: overwrite in place if the key exists,
otherwise append at the end (insertion order). -/
def dictSet : List (String × String) → String → String → List (String × String)
  | [], key, v => [(key, v)]
  | (k, w) :: t, key, v => if k == key then (key, v) :: t else (k, w) :: dictSet t key v

/-- Python dict subscript `d[k]`, raising `KeyError` on a missing key. -/
def lookupE (outs : List (String × String)) (key : String) : Except RunError String :=
  match dictGet outs key with
  | some v => Except.ok v
  | none => Except.error (RunError.keyError key)

/-- Observable state of a workflow run: the `self.outputs` dict, the list of
phases that began executing (in order), and whether any `self.outputs[k] = v`
assignment ever overwrote an existing key (instrumentation of `dictSet`). -/
structure RunState where
  outputs : List (String × String)
  executed : List String
  overwrote : Bool
deriving DecidableEq, Repr

/-- `self.outputs = {}` at construction (line 41). -/
def initState : RunState := ⟨[], [], false⟩

/-- Record that a phase began executing. -/
def enterPhase (st : RunState) (name : String) : RunState :=
  { st with executed := st.executed ++ [name] }

/-- `self.outputs[key] = val`, recording whether the key was already present. -/
def storePut (st : RunState) (key val : String) : RunState :=
  { st with
      outputs := dictSet st.outputs key val,
      overwrote := st.overwrote || (dictGet st.outputs key).isSome }

/-- System prompt of `phase_research` (lines 153-155). -/
def researchSystemPrompt : String :=
  "You are a market research analyst. Provide a brief analysis of\n3 competitors in AI interview platforms (HireVue, Pymetrics, Codility).\nList their key features and identify market gaps in 150 words."

/-- User message of `phase_research` (line 157). -/
def researchUserMessage : String :=
  "Analyze the current market for AI-powered interview platforms."

/-- System prompt of `phase_analysis` (lines 171-173). -/
def analysisSystemPrompt : String :=
  "You are a product analyst. Based on the market research provided,\nidentify 3 key market opportunities or gaps for a new AI interview platform.\nBe concise in 150 words."

/-- User message of `phase_analysis` (lines 175-178), interpolating
`self.outputs['research']`. -/
def analysisUserMessage (research : String) : String :=
  "Market research findings:\n" ++ research ++ "\n\nNow identify market opportunities and gaps."

/-- System prompt of `phase_blueprint` (lines 192-196). -/
def blueprintSystemPrompt : String :=
  "You are a product designer. Based on the market analysis and opportunities,\ncreate a brief product blueprint including:\n- Key features (3-5)\n- User journey (2-3 steps)\nKeep it concise - 150 words."

/-- User message of `phase_blueprint` (lines 198-201). -/
def blueprintUserMessage (analysis : String) : String :=
  "Market Analysis:\n" ++ analysis ++ "\n\nCreate a product blueprint for our platform."

/-- System prompt of `phase_technical` (lines 215-220). -/
def technicalSystemPrompt : String :=
  "You are a technical architect. Based on the product blueprint provided,\ndesign a technical architecture including:\n- Technology stack (frontend, backend, database)\n- Key technical components and services\n- Scalability and performance considerations\nKeep it concise - 150 words."

/-- User message of `phase_technical` (lines 222-225). -/
def technicalUserMessage (blueprint : String) : String :=
  "Product Blueprint:\n" ++ blueprint ++ "\n\nDesign the technical architecture for this platform."

/-- System prompt of `phase_review` (lines 239-241). -/
def reviewSystemPrompt : String :=
  "You are a product reviewer and strategist. Review the product blueprint\nand technical architecture, then provide 3 strategic recommendations for success.\nBe concise - 150 words."

/-- User message of `phase_review` (lines 243-249). -/
def reviewUserMessage (blueprint technical : String) : String :=
  "Product Blueprint:\n" ++ blueprint ++ "\n\nTechnical Architecture:\n" ++ technical ++ "\n\nProvide strategic review and recommendations."

/-- Common tail of every phase (e.g. lines 159-160): on a response,
`self.outputs[name] = response.choices[0].message.content`; on a raised error,
propagate it; on a `None` return value, `response.choices` raises
`AttributeError`. -/
def phaseFinish (st : RunState) (name : String)
    (res : Except RunError (Option String)) : RunState × Option RunError :=
  match res with
  | Except.error e => (st, some e)
  | Except.ok none => (st, some RunError.attributeError)
  | Except.ok (some r) => (storePut st name r, none)

/-- `phase_research` (lines 146-162): one `_make_api_call`, then
`self.outputs["research"] = response.choices[0].message.content`. -/
def phase_research (client : Nat → AttemptOutcome) (st : RunState) :
    RunState × Option RunError :=
  phaseFinish (enterPhase st "research") "research"
    (_make_api_call client researchSystemPrompt researchUserMessage 3).result

/-- `phase_analysis` (lines 164-183): reads `self.outputs['research']`. -/
def phase_analysis (client : Nat → AttemptOutcome) (st : RunState) :
    RunState × Option RunError :=
  match dictGet st.outputs "research" with
  | none => (enterPhase st "analysis", some (RunError.keyError "research"))
  | some research =>
    phaseFinish (enterPhase st "analysis") "analysis"
      (_make_api_call client analysisSystemPrompt (analysisUserMessage research) 3).result

/-- `phase_blueprint` (lines 185-206): reads `self.outputs['analysis']`. -/
def phase_blueprint (client : Nat → AttemptOutcome) (st : RunState) :
    RunState × Option RunError :=
  match dictGet st.outputs "analysis" with
  | none => (enterPhase st "blueprint", some (RunError.keyError "analysis"))
  | some analysis =>
    phaseFinish (enterPhase st "blueprint") "blueprint"
      (_make_api_call client blueprintSystemPrompt (blueprintUserMessage analysis) 3).result

/-- `phase_technical` (lines 208-230): reads `self.outputs['blueprint']`. -/
def phase_technical (client : Nat → AttemptOutcome) (st : RunState) :
    RunState × Option RunError :=
  match dictGet st.outputs "blueprint" with
  | none => (enterPhase st "technical", some (RunError.keyError "blueprint"))
  | some blueprint =>
    phaseFinish (enterPhase st "technical") "technical"
      (_make_api_call client technicalSystemPrompt (technicalUserMessage blueprint) 3).result

/-- `phase_review` (lines 232-254): reads `self.outputs['blueprint']` and
`self.outputs['technical']`. -/
def phase_review (client : Nat → AttemptOutcome) (st : RunState) :
    RunState × Option RunError :=
  match dictGet st.outputs "blueprint" with
  | none => (enterPhase st "review", some (RunError.keyError "blueprint"))
  | some blueprint =>
    match dictGet st.outputs "technical" with
    | none => (enterPhase st "review", some (RunError.keyError "technical"))
    | some technical =>
      phaseFinish (enterPhase st "review") "review"
        (_make_api_call client reviewSystemPrompt (reviewUserMessage blueprint technical) 3).result

/-- `print_summary` (lines 256-342): reads the five outputs in order (first for
console printing, then to write the report file) and produces the aggregate
report, modelled as the ordered list of (section header, phase output) pairs of
`workflow_outputs_<timestamp>.txt`; the timestamp and model banner lines carry
no phase data and are elided.  A missing key raises `KeyError`. -/
def print_summary (st : RunState) : Except RunError (List (String × String)) := do
  let research ← lookupE st.outputs "research"
  let analysis ← lookupE st.outputs "analysis"
  let blueprint ← lookupE st.outputs "blueprint"
  let technical ← lookupE st.outputs "technical"
  let review ← lookupE st.outputs "review"
  Except.ok
    [("PHASE 1: MARKET RESEARCH", research),
     ("PHASE 2: OPPORTUNITY ANALYSIS", analysis),
     ("PHASE 3: PRODUCT BLUEPRINT", blueprint),
     ("PHASE 4: TECHNICAL ARCHITECTURE", technical),
     ("PHASE 5: STRATEGIC REVIEW", review)]

/-- Result of `run`: the final state, the exception that propagated out of
`run` (if any), and the report file content (produced only by `print_summary`). -/
structure RunResult where
  state : RunState
  error : Option RunError
  report : Option (List (String × String))
deriving DecidableEq, Repr

/-- The declared phases, in declaration order (lines 128-141). -/
def phaseNames : List String :=
  ["research", "analysis", "blueprint", "technical", "review"]

/-- `run` (lines 120-144): the five phases strictly in order, then
`print_summary`.  An exception from any step propagates at once: no later
phase executes and no report is produced. -/
def run (oracle : Nat → Nat → AttemptOutcome) : RunResult :=
  match phase_research (oracle 0) initState with
  | (st, some e) => ⟨st, some e, none⟩
  | (st, none) =>
    match phase_analysis (oracle 1) st with
    | (st, some e) => ⟨st, some e, none⟩
    | (st, none) =>
      match phase_blueprint (oracle 2) st with
      | (st, some e) => ⟨st, some e, none⟩
      | (st, none) =>
        match phase_technical (oracle 3) st with
        | (st, some e) => ⟨st, some e, none⟩
        | (st, none) =>
          match phase_review (oracle 4) st with
          | (st, some e) => ⟨st, some e, none⟩
          | (st, none) =>
            match print_summary st with
            | Except.error e => ⟨st, some e, none⟩
            | Except.ok sections => ⟨st, none, some sections⟩

/-- The classification rule as the specification words it: the type name is
`"RateLimitError"`, or the message contains `"rate_limit"` or `"rate limit"`
case-insensitively, or the message contains `"429"`.  (A string contains a
needle case-insensitively iff its lowercasing contains the lowercased
needle.) -/
def isRateLimitSpec (error_type error_str : String) : Bool :=
  error_type == "RateLimitError" ||
  containsL (toLowerL "rate_limit".data) (toLowerL error_str.data) ||
  containsL (toLowerL "rate limit".data) (toLowerL error_str.data) ||
  containsL "429".data error_str.data

/-! ### Helper lemmas -/

/-- A non-rate-limit error on the first attempt propagates at once: one API
call, no sleep, the original error re-raised. -/
theorem make_api_call_fatal (client : Nat → AttemptOutcome)
    (sp um : String) (mr : Int) (ty msg : String)
    (h0 : client 0 = AttemptOutcome.fail ty msg)
    (hnr : isRateLimit ty msg = false)
    (hmr : 1 ≤ mr) :
    _make_api_call client sp um mr =
      ⟨Except.error (RunError.raised ty msg), 1, []⟩ := by
  unfold _make_api_call
  obtain ⟨k, hk⟩ : ∃ k, mr.toNat = k + 1 := ⟨mr.toNat - 1, by omega⟩
  rw [hk]
  simp [makeApiCallLoop, h0, hnr]

/-- One retrying iteration of the loop: a rate-limited attempt with attempts
remaining sleeps `w` seconds and moves to the next attempt. -/
theorem makeApiCallLoop_retry (client : Nat → AttemptOutcome) (mr : Int)
    (rem attempt : Nat) (sleeps : List Int) (ty msg : String) (w : Int)
    (hc : client attempt = AttemptOutcome.fail ty msg)
    (hr : isRateLimit ty msg = true)
    (hw : computeWaitTime msg = Except.ok w)
    (hlt : (attempt : Int) < mr - 1) :
    makeApiCallLoop client mr (rem + 1) attempt sleeps =
      makeApiCallLoop client mr rem (attempt + 1) (w :: sleeps) := by
  conv_lhs => unfold makeApiCallLoop
  simp [hc, hr, hw, hlt]

/-- The last allowed attempt: a rate-limited attempt with no attempts left
re-raises the error. -/
theorem makeApiCallLoop_exhaust (client : Nat → AttemptOutcome) (mr : Int)
    (rem attempt : Nat) (sleeps : List Int) (ty msg : String) (w : Int)
    (hc : client attempt = AttemptOutcome.fail ty msg)
    (hr : isRateLimit ty msg = true)
    (hw : computeWaitTime msg = Except.ok w)
    (hge : ¬ (attempt : Int) < mr - 1) :
    makeApiCallLoop client mr (rem + 1) attempt sleeps =
      ⟨Except.error (RunError.raised ty msg), attempt + 1, sleeps.reverse⟩ := by
  conv_lhs => unfold makeApiCallLoop
  simp [hc, hr, hw, hge]

/-- `dropLit` succeeding means the literal is a prefix. -/
theorem dropLit_startsWith :
    ∀ {p l r : List Char}, dropLit p l = some r → startsWithL p l = true
  | [], _, _, _ => rfl
  | _ :: _, [], _, h => by simp [dropLit] at h
  | a :: as, b :: bs, r, h => by
    rw [dropLit] at h
    by_cases hab : a == b
    · rw [if_pos hab] at h
      rw [startsWithL, hab, dropLit_startsWith h]
      rfl
    · rw [if_neg hab] at h
      exact absurd h (by simp)

/-- A prefix of a prefix: `p ++ q` being a prefix makes `p` one. -/
theorem startsWithL_append :
    ∀ {p q l : List Char}, startsWithL (p ++ q) l = true → startsWithL p l = true
  | [], _, _, _ => rfl
  | _ :: _, _, [], h => by simp [startsWithL] at h
  | a :: as, q, b :: bs, h => by
    rw [List.cons_append, startsWithL, Bool.and_eq_true] at h
    rw [startsWithL, h.1, startsWithL_append h.2]
    rfl

/-- Inversion of `matchWaitAt`: a match consumes the literal and its unit
character is drawn from `[smh]`. -/
theorem matchWaitAt_inv {l : List Char} {m : List Char × Char}
    (h : matchWaitAt l = some m) :
    (∃ r, dropLit waitLit l = some r) ∧ isUnitChar m.2 = true := by
  simp only [matchWaitAt] at h
  split at h
  · exact absurd h (by simp)
  · next rest heq =>
    refine ⟨⟨rest, heq⟩, ?_⟩
    split at h
    · exact absurd h (by simp)
    · split at h
      · exact absurd h (by simp)
      · split at h
        · next hu =>
          obtain rfl : _ = m := by injection h
          exact hu
        · exact absurd h (by simp)

/-- A successful regex search implies the `"Please try again in"` substring
test on line 88 succeeds. -/
theorem searchWait_contains :
    ∀ {l : List Char} {p : List Char × Char}, searchWait l = some p →
      containsL "Please try again in".data l = true
  | [], _, h => by simp [searchWait] at h
  | c :: t, p, h => by
    rw [searchWait] at h
    rcases hm : matchWaitAt (c :: t) with _ | m
    · rw [hm] at h
      have ht : containsL "Please try again in".data t = true := searchWait_contains h
      rw [containsL, ht, Bool.or_true]
    · obtain ⟨⟨r, hd⟩, -⟩ := matchWaitAt_inv hm
      have hs : startsWithL waitLit (c :: t) = true := dropLit_startsWith hd
      rw [show waitLit = "Please try again in".data ++ [' '] from by decide] at hs
      rw [containsL, startsWithL_append hs, Bool.true_or]

/-- A successful regex search returns a unit character from `[smh]`. -/
theorem searchWait_unit :
    ∀ {l grp : List Char} {u : Char}, searchWait l = some (grp, u) →
      isUnitChar u = true
  | [], _, _, h => by simp [searchWait] at h
  | c :: t, grp, u, h => by
    rw [searchWait] at h
    rcases hm : matchWaitAt (c :: t) with _ | m
    · rw [hm] at h
      exact searchWait_unit h
    · rw [hm] at h
      obtain rfl : m = (grp, u) := by injection h
      exact (matchWaitAt_inv hm).2

/-- Integer division by a power of ten is the rational floor of the exact
quotient (this is why the truncating divisions in `computeWaitTime` compute
the floors of the exact decimal values). -/
theorem floor_intCast_div_pow (a : ℤ) (k : ℕ) :
    a / (10 : ℤ) ^ k = Int.floor ((a : ℚ) / (10 : ℚ) ^ k) := by
  have h1 : ((10 : ℚ)) ^ k = ((10 ^ k : ℕ) : ℚ) := by push_cast; ring
  have h2 : ((10 : ℤ)) ^ k = ((10 ^ k : ℕ) : ℤ) := by push_cast; ring
  rw [h1, h2, Rat.floor_intCast_div_natCast]

/-! ### Claims -/

/-- C1: the spec asserts the computed wait for a message containing
"Please try again in 3m23.04s" is 203 seconds; the code's regex captures only
`3` with unit `m` (the `23.04s` part is dropped, as the spec's own open
question notes), so `_make_api_call` computes `int(3*60)+10 = 190`, not 203. -/
theorem C1_wait_time_3m23s :
    computeWaitTime "Rate limit reached. Please try again in 3m23.04s" =
      Except.ok 190 ∧ (190 : Int) ≠ 203 :=
  ⟨by decide, by decide⟩

/-- C2: any error not classified as a rate-limit error propagates at once:
exactly one attempt is made, no sleep happens, and the original error is
re-raised. -/
theorem C2_fatal_error_propagates (client : Nat → AttemptOutcome)
    (sp um : String) (mr : Int) (ty msg : String)
    (h0 : client 0 = AttemptOutcome.fail ty msg)
    (hnr : isRateLimit ty msg = false)
    (hmr : 1 ≤ mr) :
    _make_api_call client sp um mr =
      ⟨Except.error (RunError.raised ty msg), 1, []⟩ :=
  make_api_call_fatal client sp um mr ty msg h0 hnr hmr

theorem C2_fatal_error_propagates_witness :
    _make_api_call (fun _ => AttemptOutcome.fail "TypeError" "boom") "sys" "user" 3 =
      ⟨Except.error (RunError.raised "TypeError" "boom"), 1, []⟩ :=
  C2_fatal_error_propagates _ "sys" "user" 3 "TypeError" "boom" rfl (by decide) (by decide)

/-- C3: with `max_retries = 3` and a rate-limit error on every attempt, the
call makes exactly 3 attempts, sleeps after attempts 1 and 2 only (sleep
durations `w 0` and `w 1`, in that order), and re-raises the third error. -/
theorem C3_three_rate_limited_attempts (client : Nat → AttemptOutcome)
    (sp um : String) (ty msg : Nat → String) (w : Nat → Int)
    (hc : ∀ i, i < 3 → client i = AttemptOutcome.fail (ty i) (msg i))
    (hr : ∀ i, i < 3 → isRateLimit (ty i) (msg i) = true)
    (hw : ∀ i, i < 3 → computeWaitTime (msg i) = Except.ok (w i)) :
    _make_api_call client sp um 3 =
      ⟨Except.error (RunError.raised (ty 2) (msg 2)), 3, [w 0, w 1]⟩ := by
  show makeApiCallLoop client 3 (2 + 1) 0 [] = _
  rw [makeApiCallLoop_retry client 3 2 0 [] (ty 0) (msg 0) (w 0)
        (hc 0 (by omega)) (hr 0 (by omega)) (hw 0 (by omega)) (by norm_num)]
  show makeApiCallLoop client 3 (1 + 1) 1 [w 0] = _
  rw [makeApiCallLoop_retry client 3 1 1 [w 0] (ty 1) (msg 1) (w 1)
        (hc 1 (by omega)) (hr 1 (by omega)) (hw 1 (by omega)) (by norm_num)]
  show makeApiCallLoop client 3 (0 + 1) 2 [w 1, w 0] = _
  rw [makeApiCallLoop_exhaust client 3 0 2 [w 1, w 0] (ty 2) (msg 2) (w 2)
        (hc 2 (by omega)) (hr 2 (by omega)) (hw 2 (by omega)) (by norm_num)]
  rfl

theorem C3_three_rate_limited_attempts_witness :
    _make_api_call (fun _ => AttemptOutcome.fail "RateLimitError" "quota") "sys" "user" 3 =
      ⟨Except.error (RunError.raised "RateLimitError" "quota"), 3, [60, 60]⟩ :=
  C3_three_rate_limited_attempts _ "sys" "user"
    (fun _ => "RateLimitError") (fun _ => "quota") (fun _ => 60)
    (fun _ _ => rfl) (fun _ _ => rfl) (fun _ _ => rfl)

/-- C4: a rate-limit message in which the wait-time regex finds no
`<value><unit>` phrase gets the default wait of 60 seconds. -/
theorem C4_unparseable_defaults_to_60 (msg : String)
    (h : searchWait msg.data = none) :
    computeWaitTime msg = Except.ok 60 := by
  unfold computeWaitTime
  split
  · rw [h]
  · rfl

theorem C4_unparseable_defaults_to_60_witness :
    computeWaitTime "Rate limit exceeded, retry later" = Except.ok 60 :=
  C4_unparseable_defaults_to_60 _ (by decide)

/-- C5: an error is classified as rate-limit iff its type name is
`"RateLimitError"`, or its message contains `"rate_limit"` or `"rate limit"`
case-insensitively, or its message contains `"429"`. -/
theorem C5_rate_limit_classification (ty s : String) :
    isRateLimit ty s = isRateLimitSpec ty s ∧
    (isRateLimit ty s = true ↔
      (ty = "RateLimitError" ∨
       containsL "rate_limit".data (toLowerL s.data) = true ∨
       containsL "rate limit".data (toLowerL s.data) = true ∨
       containsL "429".data s.data = true)) :=
  ⟨rfl, by simp [isRateLimit, or_assoc]⟩

/-- C6: for a message matching the wait-time regex with parsed value `v` and
unit `u`, the computed wait is `⌊v⌋ + 5` for seconds, `⌊v * 60⌋ + 10` for
minutes, and `⌊v * 3600⌋ + 60` for hours. -/
theorem C6_parsed_wait_formula (msg : String) (grp : List Char) (u : Char)
    (v : ℚ)
    (hs : searchWait msg.data = some (grp, u))
    (hv : parseDecimal grp = some v) :
    computeWaitTime msg =
      Except.ok (if u = 's' then Int.floor v + 5
                 else if u = 'm' then Int.floor (v * 60) + 10
                 else Int.floor (v * 3600) + 60) := by
  obtain ⟨⟨n, k⟩, hp, hval⟩ :
      ∃ p : Nat × Nat, parseDecimalParts grp = some p ∧
        ((p.1 : ℚ) / (10 : ℚ) ^ p.2) = v := by
    simpa [parseDecimal, Option.map_eq_some'] using hv
  subst hval
  have hcont := searchWait_contains hs
  have hu := searchWait_unit hs
  rcases (show (u = 's' ∨ u = 'm') ∨ u = 'h' from by
      simpa [isUnitChar, Bool.or_eq_true, beq_iff_eq] using hu) with (rfl | rfl) | rfl <;>
    · simp [computeWaitTime, hcont, hs, hp]
      rw [floor_intCast_div_pow]
      congr 1
      all_goals push_cast
      all_goals try ring

theorem C6_parsed_wait_formula_witness :
    computeWaitTime "Please try again in 7s" = Except.ok 12 :=
  (C6_parsed_wait_formula "Please try again in 7s" "7".data 's'
      (((7 : ℕ) : ℚ) / (10 : ℚ) ^ (0 : ℕ)) (by decide) rfl).trans (by norm_num)

/-- C9: with a non-positive `max_retries` the loop body never runs: no API
call is made, nothing is raised, and the function returns `None`. -/
theorem C9_nonpositive_retries_returns_none (client : Nat → AttemptOutcome)
    (sp um : String) (mr : Int) (h : mr ≤ 0) :
    _make_api_call client sp um mr = ⟨Except.ok none, 0, []⟩ := by
  unfold _make_api_call
  rw [show mr.toNat = 0 from by omega]
  rfl

theorem C9_nonpositive_retries_returns_none_witness :
    _make_api_call (fun _ => AttemptOutcome.ok "resp") "sys" "user" 0 =
      ⟨Except.ok none, 0, []⟩ :=
  C9_nonpositive_retries_returns_none _ "sys" "user" 0 (by decide)

/-- C10: a rate-limit message whose captured wait-time group has no digit
(here `"."` from "Please try again in .s") makes `float(...)` raise
`ValueError` instead of falling back to the 60-second default, and
`_make_api_call` propagates that `ValueError` on the first attempt. -/
theorem C10_value_error_on_digitless_group :
    isRateLimit "Exception" "Rate limit: Please try again in .s" = true ∧
    computeWaitTime "Rate limit: Please try again in .s" = Except.error () ∧
    _make_api_call
        (fun _ => AttemptOutcome.fail "Exception" "Rate limit: Please try again in .s")
        "sys" "user" 3 =
      ⟨Except.error RunError.valueError, 1, []⟩ :=
  ⟨by decide, by decide, by decide⟩

/-! ### Phase-level lemmas for the workflow claims -/

theorem phaseFinish_ok (st : RunState) (name : String) (r : String) :
    phaseFinish st name (Except.ok (some r)) = (storePut st name r, none) := rfl

theorem phaseFinish_err (st : RunState) (name : String) (e : RunError) :
    phaseFinish st name (Except.error e) = (st, some e) := rfl

/-- A phase ending without an exception stored exactly one response text. -/
theorem phaseFinish_none {st st' : RunState} {name : String}
    {res : Except RunError (Option String)}
    (h : phaseFinish st name res = (st', none)) :
    ∃ x, res = Except.ok (some x) ∧ st' = storePut st name x := by
  rcases res with e | o
  · simp [phaseFinish] at h
  · rcases o with _ | x
    · simp [phaseFinish] at h
    · simp only [phaseFinish, Prod.mk.injEq] at h
      exact ⟨x, rfl, h.1.symm⟩

theorem phase_research_none {client : Nat → AttemptOutcome} {st st' : RunState}
    (h : phase_research client st = (st', none)) :
    ∃ x, st' = storePut (enterPhase st "research") "research" x := by
  unfold phase_research at h
  obtain ⟨x, -, hx⟩ := phaseFinish_none h
  exact ⟨x, hx⟩

theorem phase_analysis_none {client : Nat → AttemptOutcome} {st st' : RunState}
    (h : phase_analysis client st = (st', none)) :
    ∃ x, st' = storePut (enterPhase st "analysis") "analysis" x := by
  unfold phase_analysis at h
  rcases hd : dictGet st.outputs "research" with _ | research
  · rw [hd] at h
    simp at h
  · rw [hd] at h
    obtain ⟨x, -, hx⟩ := phaseFinish_none h
    exact ⟨x, hx⟩

theorem phase_blueprint_none {client : Nat → AttemptOutcome} {st st' : RunState}
    (h : phase_blueprint client st = (st', none)) :
    ∃ x, st' = storePut (enterPhase st "blueprint") "blueprint" x := by
  unfold phase_blueprint at h
  rcases hd : dictGet st.outputs "analysis" with _ | analysis
  · rw [hd] at h
    simp at h
  · rw [hd] at h
    obtain ⟨x, -, hx⟩ := phaseFinish_none h
    exact ⟨x, hx⟩

theorem phase_technical_none {client : Nat → AttemptOutcome} {st st' : RunState}
    (h : phase_technical client st = (st', none)) :
    ∃ x, st' = storePut (enterPhase st "technical") "technical" x := by
  unfold phase_technical at h
  rcases hd : dictGet st.outputs "blueprint" with _ | blueprint
  · rw [hd] at h
    simp at h
  · rw [hd] at h
    obtain ⟨x, -, hx⟩ := phaseFinish_none h
    exact ⟨x, hx⟩

theorem phase_review_none {client : Nat → AttemptOutcome} {st st' : RunState}
    (h : phase_review client st = (st', none)) :
    ∃ x, st' = storePut (enterPhase st "review") "review" x := by
  unfold phase_review at h
  rcases hd : dictGet st.outputs "blueprint" with _ | blueprint
  · rw [hd] at h
    simp at h
  · rw [hd] at h
    rcases hd2 : dictGet st.outputs "technical" with _ | technical
    · rw [hd2] at h
      simp at h
    · rw [hd2] at h
      obtain ⟨x, -, hx⟩ := phaseFinish_none h
      exact ⟨x, hx⟩

theorem phase_research_eval_ok {client : Nat → AttemptOutcome} (st : RunState)
    {r : String}
    (h : (_make_api_call client researchSystemPrompt researchUserMessage 3).result =
      Except.ok (some r)) :
    phase_research client st =
      (storePut (enterPhase st "research") "research" r, none) := by
  unfold phase_research
  rw [h, phaseFinish_ok]

theorem phase_research_eval_err {client : Nat → AttemptOutcome} (st : RunState)
    {e : RunError}
    (h : (_make_api_call client researchSystemPrompt researchUserMessage 3).result =
      Except.error e) :
    phase_research client st = (enterPhase st "research", some e) := by
  unfold phase_research
  rw [h, phaseFinish_err]

theorem phase_analysis_eval_ok {client : Nat → AttemptOutcome} (st : RunState)
    {research r : String}
    (hd : dictGet st.outputs "research" = some research)
    (h : (_make_api_call client analysisSystemPrompt
        (analysisUserMessage research) 3).result = Except.ok (some r)) :
    phase_analysis client st =
      (storePut (enterPhase st "analysis") "analysis" r, none) := by
  unfold phase_analysis
  simp only [hd]
  rw [h, phaseFinish_ok]

theorem phase_analysis_eval_err {client : Nat → AttemptOutcome} (st : RunState)
    {research : String} {e : RunError}
    (hd : dictGet st.outputs "research" = some research)
    (h : (_make_api_call client analysisSystemPrompt
        (analysisUserMessage research) 3).result = Except.error e) :
    phase_analysis client st = (enterPhase st "analysis", some e) := by
  unfold phase_analysis
  simp only [hd]
  rw [h, phaseFinish_err]

theorem phase_blueprint_eval_ok {client : Nat → AttemptOutcome} (st : RunState)
    {analysis r : String}
    (hd : dictGet st.outputs "analysis" = some analysis)
    (h : (_make_api_call client blueprintSystemPrompt
        (blueprintUserMessage analysis) 3).result = Except.ok (some r)) :
    phase_blueprint client st =
      (storePut (enterPhase st "blueprint") "blueprint" r, none) := by
  unfold phase_blueprint
  simp only [hd]
  rw [h, phaseFinish_ok]

theorem phase_blueprint_eval_err {client : Nat → AttemptOutcome} (st : RunState)
    {analysis : String} {e : RunError}
    (hd : dictGet st.outputs "analysis" = some analysis)
    (h : (_make_api_call client blueprintSystemPrompt
        (blueprintUserMessage analysis) 3).result = Except.error e) :
    phase_blueprint client st = (enterPhase st "blueprint", some e) := by
  unfold phase_blueprint
  simp only [hd]
  rw [h, phaseFinish_err]

theorem phase_technical_eval_ok {client : Nat → AttemptOutcome} (st : RunState)
    {blueprint r : String}
    (hd : dictGet st.outputs "blueprint" = some blueprint)
    (h : (_make_api_call client technicalSystemPrompt
        (technicalUserMessage blueprint) 3).result = Except.ok (some r)) :
    phase_technical client st =
      (storePut (enterPhase st "technical") "technical" r, none) := by
  unfold phase_technical
  simp only [hd]
  rw [h, phaseFinish_ok]

theorem phase_technical_eval_err {client : Nat → AttemptOutcome} (st : RunState)
    {blueprint : String} {e : RunError}
    (hd : dictGet st.outputs "blueprint" = some blueprint)
    (h : (_make_api_call client technicalSystemPrompt
        (technicalUserMessage blueprint) 3).result = Except.error e) :
    phase_technical client st = (enterPhase st "technical", some e) := by
  unfold phase_technical
  simp only [hd]
  rw [h, phaseFinish_err]

theorem phase_review_eval_err {client : Nat → AttemptOutcome} (st : RunState)
    {blueprint technical : String} {e : RunError}
    (hd : dictGet st.outputs "blueprint" = some blueprint)
    (hd2 : dictGet st.outputs "technical" = some technical)
    (h : (_make_api_call client reviewSystemPrompt
        (reviewUserMessage blueprint technical) 3).result = Except.error e) :
    phase_review client st = (enterPhase st "review", some e) := by
  unfold phase_review
  simp only [hd, hd2]
  rw [h, phaseFinish_err]

/-- C7: after a successful `run`, the output store holds exactly the five
phase names as keys, in declaration order, and no dict assignment during the
run ever overwrote an existing key. -/
theorem C7_outputs_after_success (oracle : Nat → Nat → AttemptOutcome)
    (h : (run oracle).error = none) :
    (run oracle).state.outputs.map Prod.fst = phaseNames ∧
    (run oracle).state.overwrote = false := by
  unfold run at h ⊢
  rcases h1 : phase_research (oracle 0) initState with ⟨st1, _ | e1⟩
  · simp only [h1] at h ⊢
    rcases h2 : phase_analysis (oracle 1) st1 with ⟨st2, _ | e2⟩
    · simp only [h2] at h ⊢
      rcases h3 : phase_blueprint (oracle 2) st2 with ⟨st3, _ | e3⟩
      · simp only [h3] at h ⊢
        rcases h4 : phase_technical (oracle 3) st3 with ⟨st4, _ | e4⟩
        · simp only [h4] at h ⊢
          rcases h5 : phase_review (oracle 4) st4 with ⟨st5, _ | e5⟩
          · simp only [h5] at h ⊢
            rcases h6 : print_summary st5 with e6 | sections
            · simp [h6] at h
            · simp only [h6] at h ⊢
              obtain ⟨r1, hs1⟩ := phase_research_none h1
              obtain ⟨r2, hs2⟩ := phase_analysis_none h2
              obtain ⟨r3, hs3⟩ := phase_blueprint_none h3
              obtain ⟨r4, hs4⟩ := phase_technical_none h4
              obtain ⟨r5, hs5⟩ := phase_review_none h5
              subst hs1 hs2 hs3 hs4 hs5
              exact ⟨rfl, rfl⟩
          · simp [h5] at h
        · simp [h4] at h
      · simp [h3] at h
    · simp [h2] at h
  · simp [h1] at h

theorem C7_outputs_after_success_witness :
    (run (fun _ _ => AttemptOutcome.ok "text")).state.outputs.map Prod.fst =
        phaseNames ∧
    (run (fun _ _ => AttemptOutcome.ok "text")).state.overwrote = false :=
  C7_outputs_after_success _ rfl

/-- C8: if the first `k` phases succeed and phase `k` raises a fatal
(non-rate-limit) error, `run` stops there: only phases `0..k` began executing,
the error propagates, and no report is produced. -/
theorem C8_fatal_phase_halts_run (oracle : Nat → Nat → AttemptOutcome)
    (k : Nat) (r : Nat → String) (ty msg : String)
    (hk : k < 5)
    (hok : ∀ j, j < k → ∀ sp um,
      (_make_api_call (oracle j) sp um 3).result = Except.ok (some (r j)))
    (hfail : oracle k 0 = AttemptOutcome.fail ty msg)
    (hnr : isRateLimit ty msg = false) :
    (run oracle).error = some (RunError.raised ty msg) ∧
    (run oracle).state.executed = phaseNames.take (k + 1) ∧
    (run oracle).report = none := by
  have hfres : ∀ sp um, (_make_api_call (oracle k) sp um 3).result =
      Except.error (RunError.raised ty msg) := fun sp um => by
    rw [make_api_call_fatal (oracle k) sp um 3 ty msg hfail hnr (by norm_num)]
  interval_cases k
  · have h1 := phase_research_eval_err initState
      (hfres researchSystemPrompt researchUserMessage)
    simp only [run, h1]
    refine ⟨?_, ?_, ?_⟩ <;> trivial
  · have h1 := phase_research_eval_ok initState
      (hok 0 (by omega) researchSystemPrompt researchUserMessage)
    have h2 := phase_analysis_eval_err
      (storePut (enterPhase initState "research") "research" (r 0)) rfl
      (hfres analysisSystemPrompt (analysisUserMessage (r 0)))
    simp only [run, h1, h2]
    refine ⟨?_, ?_, ?_⟩ <;> trivial
  · have h1 := phase_research_eval_ok initState
      (hok 0 (by omega) researchSystemPrompt researchUserMessage)
    have h2 := phase_analysis_eval_ok
      (storePut (enterPhase initState "research") "research" (r 0)) rfl
      (hok 1 (by omega) analysisSystemPrompt (analysisUserMessage (r 0)))
    have h3 := phase_blueprint_eval_err
      (storePut (enterPhase (storePut (enterPhase initState "research")
        "research" (r 0)) "analysis") "analysis" (r 1)) rfl
      (hfres blueprintSystemPrompt (blueprintUserMessage (r 1)))
    simp only [run, h1, h2, h3]
    refine ⟨?_, ?_, ?_⟩ <;> trivial
  · have h1 := phase_research_eval_ok initState
      (hok 0 (by omega) researchSystemPrompt researchUserMessage)
    have h2 := phase_analysis_eval_ok
      (storePut (enterPhase initState "research") "research" (r 0)) rfl
      (hok 1 (by omega) analysisSystemPrompt (analysisUserMessage (r 0)))
    have h3 := phase_blueprint_eval_ok
      (storePut (enterPhase (storePut (enterPhase initState "research")
        "research" (r 0)) "analysis") "analysis" (r 1)) rfl
      (hok 2 (by omega) blueprintSystemPrompt (blueprintUserMessage (r 1)))
    have h4 := phase_technical_eval_err
      (storePut (enterPhase (storePut (enterPhase (storePut (enterPhase
        initState "research") "research" (r 0)) "analysis") "analysis" (r 1))
        "blueprint") "blueprint" (r 2)) rfl
      (hfres technicalSystemPrompt (technicalUserMessage (r 2)))
    simp only [run, h1, h2, h3, h4]
    refine ⟨?_, ?_, ?_⟩ <;> trivial
  · have h1 := phase_research_eval_ok initState
      (hok 0 (by omega) researchSystemPrompt researchUserMessage)
    have h2 := phase_analysis_eval_ok
      (storePut (enterPhase initState "research") "research" (r 0)) rfl
      (hok 1 (by omega) analysisSystemPrompt (analysisUserMessage (r 0)))
    have h3 := phase_blueprint_eval_ok
      (storePut (enterPhase (storePut (enterPhase initState "research")
        "research" (r 0)) "analysis") "analysis" (r 1)) rfl
      (hok 2 (by omega) blueprintSystemPrompt (blueprintUserMessage (r 1)))
    have h4 := phase_technical_eval_ok
      (storePut (enterPhase (storePut (enterPhase (storePut (enterPhase
        initState "research") "research" (r 0)) "analysis") "analysis" (r 1))
        "blueprint") "blueprint" (r 2)) rfl
      (hok 3 (by omega) technicalSystemPrompt (technicalUserMessage (r 2)))
    have h5 := phase_review_eval_err
      (storePut (enterPhase (storePut (enterPhase (storePut (enterPhase
        (storePut (enterPhase initState "research") "research" (r 0))
        "analysis") "analysis" (r 1)) "blueprint") "blueprint" (r 2))
        "technical") "technical" (r 3)) rfl rfl
      (hfres reviewSystemPrompt (reviewUserMessage (r 2) (r 3)))
    simp only [run, h1, h2, h3, h4, h5]
    refine ⟨?_, ?_, ?_⟩ <;> trivial

theorem C8_fatal_phase_halts_run_witness :
    (run (fun _ _ => AttemptOutcome.fail "TypeError" "boom")).error =
        some (RunError.raised "TypeError" "boom") ∧
    (run (fun _ _ => AttemptOutcome.fail "TypeError" "boom")).state.executed =
        phaseNames.take 1 ∧
    (run (fun _ _ => AttemptOutcome.fail "TypeError" "boom")).report = none :=
  C8_fatal_phase_halts_run _ 0 (fun _ => "") "TypeError" "boom" (by decide)
    (fun j hj _ _ => absurd hj (by omega)) rfl (by decide)

end AutogenDemo
